import Mathlib

/-!
Verification of the type-reflection and serialization engine of data_tamer,
as implemented in src/data_tamer/include/data_tamer/custom_types.hpp.

The C++ template machinery is shallowly embedded: a compile-time template
argument T becomes a value of the inductive type TypeDesc, which records
exactly the information the header queries about T:
  * IsNumericType<T>() and sizeof(T) for numeric leaf types;
  * SerializeMe::container_info<T>() (is_container together with the static
    size: 0 for variable-length sequences such as std::vector, N for
    std::array<T, N>);
  * the user-supplied TypeDefinition<T> specialization: typeName() and the
    field enumeration typeDef(addField), which visits the declared fields
    in order.
The uninitialized local variable obj_size in the fixed-array branch of
GetFixedSize (custom_types.hpp, line 143) is modelled explicitly: the
indeterminate value it holds when first read is passed in as the parameter
junk, so every theorem quantifies over (or exhibits) that value.
-/

namespace DataTamer

mutual

/-- A compile-time C++ type as seen by custom_types.hpp: a numeric leaf
(with its type name and sizeof in bytes), a variable-length sequence
Container<T, ...> (container_info size 0), a fixed array std::array<T, N>
(container_info size N), or a user composite type with a TypeDefinition
specialization giving its name and ordered field list. -/
inductive TypeDesc : Type where
  | numeric : String → Nat → TypeDesc
  | sequence : TypeDesc → TypeDesc
  | array : TypeDesc → Nat → TypeDesc
  | custom : String → FieldList → TypeDesc

/-- The ordered list of (field name, field type) pairs that
TypeDefinition<T>::typeDef(addField) enumerates. -/
inductive FieldList : Type where
  | nil : FieldList
  | cons : String → TypeDesc → FieldList → FieldList

end

/-- IsNumericType<T>(): true exactly for the built-in fixed-width numeric
types. -/
def isNumericType : TypeDesc → Bool
  | .numeric _ _ => true
  | _ => false

/-- SerializeMe::container_info<T>().is_container: true for variable-length
sequences and for std::array. -/
def isContainer : TypeDesc → Bool
  | .sequence _ => true
  | .array _ _ => true
  | _ => false

/-- TypeDefinition<T>().typeName(): the name of a numeric or custom type;
the specializations for Container<T, TArgs...> and std::array<T, N>
(custom_types.hpp lines 105-121) both return the element type's name. -/
def typeName : TypeDesc → String
  | .numeric n _ => n
  | .sequence t => typeName t
  | .array t _ => typeName t
  | .custom n _ => n

mutual

/-- True when the type contains, directly or nested inside a field or a
fixed array, a variable-length sequence. -/
def containsSequence : TypeDesc → Bool
  | .numeric _ _ => false
  | .sequence _ => true
  | .array t _ => containsSequence t
  | .custom _ fs => fieldsContainSequence fs

/-- True when some field of the list contains a variable-length sequence. -/
def fieldsContainSequence : FieldList → Bool
  | .nil => false
  | .cons _ t rest => containsSequence t || fieldsContainSequence rest

end

mutual

/-- GetFixedSize<T>(is_fixed_size, fixed_size) (custom_types.hpp lines
125-161), with the two by-reference parameters threaded as arguments f
(is_fixed_size) and acc (fixed_size) and returned as the pair.
The numeric branch adds sizeof(T); the sequence branch (container with
static size 0, which also catches std::array<T, 0>) clears is_fixed_size;
the array branch calls GetFixedSize on the element type with a fresh local
obj_size that the C++ leaves UNINITIALIZED - its indeterminate starting
value is the parameter junk - and then adds N * obj_size; the composite
branch visits each field in order, recursing only while is_fixed_size is
still true. -/
def getFixedSize (junk : Nat) : TypeDesc → Bool → Nat → Bool × Nat
  | .numeric _ w, f, acc => (f, acc + w)
  | .sequence _, _, acc => (false, acc)
  | .array t n, f, acc =>
      if n = 0 then (false, acc)
      else
        let r := getFixedSize junk t f junk
        (r.1, acc + n * r.2)
  | .custom _ fs, f, acc => getFixedSizeFields junk fs f acc

/-- The field-visitor lambda of GetFixedSize (custom_types.hpp lines
151-158) folded over the enumerated fields: each field is processed only
if is_fixed_size is still true. -/
def getFixedSizeFields (junk : Nat) : FieldList → Bool → Nat → Bool × Nat
  | .nil, f, acc => (f, acc)
  | .cons _ t rest, f, acc =>
      if f then
        let r := getFixedSize junk t f acc
        getFixedSizeFields junk rest r.1 r.2
      else
        getFixedSizeFields junk rest f acc

end

/-- The state of a constructed CustomSerializerT<T>: the stored type name
_name, the cached _fixed_size, and an allocation identity distinguishing
the shared_ptr instances handed out by the registry. -/
structure SerializerState : Type where
  name : String
  fixedSize : Nat
  id : Nat
deriving DecidableEq, Repr

/-- The CustomSerializerT<T> constructor (custom_types.hpp lines 163-175):
runs GetFixedSize with is_fixed_size = true and _fixed_size = 0, then
resets _fixed_size to 0 when the type turned out not to be fixed size. -/
def mkSerializer (junk : Nat) (typeNameArg : String) (t : TypeDesc) (id : Nat) :
    SerializerState :=
  let r := getFixedSize junk t true 0
  { name := typeNameArg, fixedSize := if r.1 then r.2 else 0, id := id }

/-- CustomSerializerT<T>::isFixedSize() (custom_types.hpp lines 194-198):
returns _fixed_size > 0. -/
def SerializerState.isFixedSize (s : SerializerState) : Bool :=
  decide (0 < s.fixedSize)

mutual

/-- A runtime instance of a type, carrying exactly the structure the
per-call measurement traverses: a numeric value (only its byte width
matters for sizing), a variable-length sequence of elements, a fixed array
of elements, or a composite record of field values. -/
inductive Value : Type where
  | numeric : Nat → Value
  | sequence : ValueList → Value
  | arrayVal : ValueList → Value
  | record : ValueList → Value

/-- A list of element or field values. -/
inductive ValueList : Type where
  | nil : ValueList
  | cons : Value → ValueList → ValueList

end

mutual

/-- Modelled from the spec: SerializeMe::BufferSize, the per-call
measurement invoked by serializedSize, lives in
data_tamer/contrib/SerializeMe.hpp which is not part of the sources here.
The spec describes it as a per-call measurement that may traverse
variable-length containers, with numeric leaves contributing their fixed
byte width, fixed arrays and composite fields contributing the sum of
their parts, and a variable-length sequence of n elements carrying a
length header (so that instances differing by k elements differ by exactly
k times the element size). -/
def bufferSize : Value → Nat
  | .numeric w => w
  | .sequence vs => 4 + bufferSizeList vs
  | .arrayVal vs => bufferSizeList vs
  | .record vs => bufferSizeList vs

/-- Modelled from the spec: the sum of the measured sizes of a list of
element or field values. -/
def bufferSizeList : ValueList → Nat
  | .nil => 0
  | .cons v vs => bufferSize v + bufferSizeList vs

end

/-- CustomSerializerT<T>::serializedSize(src_instance) (custom_types.hpp
lines 183-192): returns the cached _fixed_size when it is nonzero,
otherwise measures the instance with SerializeMe::BufferSize. -/
def SerializerState.serializedSize (s : SerializerState) (v : Value) : Nat :=
  if s.fixedSize ≠ 0 then s.fixedSize else bufferSize v

/-- std::unordered_map<...>::find / count: the first entry stored under the
key, if any. -/
def lookupType (key : String) : List (String × SerializerState) → Option SerializerState
  | [] => none
  | (k, v) :: rest => if k = key then some v else lookupType key rest

/-- _types[key] = v on std::unordered_map: replaces the entry stored under
key if present, otherwise appends a fresh entry. -/
def insertType (key : String) (v : SerializerState) :
    List (String × SerializerState) → List (String × SerializerState)
  | [] => [(key, v)]
  | (k, w) :: rest =>
      if k = key then (key, v) :: rest else (k, w) :: insertType key v rest

/-- The state of a TypesRegistry (custom_types.hpp lines 85-98): the map
_types from type name to serializer, plus an allocation counter supplying
the identity of the next std::make_shared<CustomSerializerT<T>> call. -/
structure Registry : Type where
  types : List (String × SerializerState)
  nextId : Nat
deriving DecidableEq, Repr

/-- A TypesRegistry as default-constructed: empty map. -/
def emptyRegistry : Registry := { types := [], nextId := 0 }

/-- The message of the static assertion rejecting numeric template
arguments in getSerializer and addType. -/
def numericAssertMsg : String :=
  "You do not need to create a serializer for a numerical type."

/-- The message of the static assertion rejecting container template
arguments in getSerializer and addType. -/
def containerAssertMsg : String := "Do not pass containers as template type"

/-- TypesRegistry::getSerializer<T>() (custom_types.hpp lines 207-226).
The two static assertions, which reject numeric and container template
arguments at compile time, are embedded as error results. Otherwise the
map is consulted under TypeDefinition<T>().typeName(): a stored serializer
is returned as is; when none is stored a CustomSerializerT<T> is
constructed, stored under the name, and returned. -/
def getSerializer (junk : Nat) (r : Registry) (t : TypeDesc) :
    Except String (SerializerState × Registry) :=
  if isNumericType t then .error numericAssertMsg
  else if isContainer t then .error containerAssertMsg
  else
    let tn := typeName t
    match lookupType tn r.types with
    | some s => .ok (s, r)
    | none =>
        let s := mkSerializer junk tn t r.nextId
        .ok (s, { types := insertType tn s r.types, nextId := r.nextId + 1 })

/-- TypesRegistry::addType<T>(type_name, skip_if_present) (custom_types.hpp
lines 228-245). The two static assertions are embedded as error results.
When skip_if_present holds and the name is already in the map, the empty
shared_ptr (Option.none) is returned and the map is untouched; otherwise a
new CustomSerializerT<T> is constructed with the given name, stored under
it (replacing any previous entry), and returned. -/
def addType (junk : Nat) (r : Registry) (t : TypeDesc) (typeNameArg : String)
    (skipIfPresent : Bool) : Except String (Option SerializerState × Registry) :=
  if isNumericType t then .error numericAssertMsg
  else if isContainer t then .error containerAssertMsg
  else if skipIfPresent && (lookupType typeNameArg r.types).isSome then .ok (none, r)
  else
    let s := mkSerializer junk typeNameArg t r.nextId
    .ok (some s, { types := insertType typeNameArg s r.types, nextId := r.nextId + 1 })

/-- One public operation on a TypesRegistry. -/
inductive RegOp : Type where
  | get : TypeDesc → RegOp
  | add : TypeDesc → String → Bool → RegOp

/-- Run one operation against the registry state; a static-assertion
failure (a program that does not compile) leaves the state unchanged. -/
def applyOp (junk : Nat) (r : Registry) : RegOp → Registry
  | .get t =>
      match getSerializer junk r t with
      | .ok p => p.2
      | .error _ => r
  | .add t n skip =>
      match addType junk r t n skip with
      | .ok p => p.2
      | .error _ => r

/-- Run a sequence of registry operations from a starting state. -/
def runOps (junk : Nat) (ops : List RegOp) (r : Registry) : Registry :=
  ops.foldl (applyOp junk) r

/-- The type names under which serializers are stored. -/
def typeNames (l : List (String × SerializerState)) : List String :=
  l.map Prod.fst

/-! ### Concrete test inputs -/

/-- A composite type with a single float64 field. -/
def pointType : TypeDesc :=
  .custom "Point" (.cons "x" (.numeric "float64" 8) .nil)

/-- The scenario type of the spec: one fixed array field of 4 numerics and
one variable-length sequence field. -/
def scenarioType : TypeDesc :=
  .custom "Scenario"
    (.cons "arr" (.array (.numeric "int32" 4) 4)
      (.cons "seq" (.sequence (.numeric "int32" 4)) .nil))

/-- A composite type whose only field is std::array<int32_t, 4>. -/
def arrayHolderType : TypeDesc :=
  .custom "ArrHolder" (.cons "arr" (.array (.numeric "int32" 4) 4) .nil)

/-- A fixed-size composite type with an int32 and a float64 field. -/
def pairType : TypeDesc :=
  .custom "Pair"
    (.cons "a" (.numeric "int32" 4) (.cons "b" (.numeric "float64" 8) .nil))

/-- A variable-size composite type with one sequence field. -/
def polyType : TypeDesc :=
  .custom "Poly" (.cons "pts" (.sequence (.numeric "float64" 8)) .nil)

/-- An instance of polyType holding a one-element sequence. -/
def polyValue : Value :=
  .record (.cons (.sequence (.cons (.numeric 8) .nil)) .nil)

/-- A composite type whose field visitor enumerates no fields. -/
def emptyType : TypeDesc := .custom "Empty" .nil

/-- A registry obtained by adding pointType under its own name. -/
def demoRegistry : Registry :=
  runOps 0 [.add pointType "Point" false] emptyRegistry

/-! ### Helper lemmas -/

/-- Once is_fixed_size is false, the field visitor of GetFixedSize skips
every remaining field, leaving both reference parameters unchanged. -/
theorem getFixedSizeFields_false (junk : Nat) :
    ∀ (fs : FieldList) (acc : Nat), getFixedSizeFields junk fs false acc = (false, acc)
  | .nil, _ => rfl
  | .cons _ t rest, acc => by
      simpa [getFixedSizeFields] using getFixedSizeFields_false junk rest acc

mutual

/-- If the type contains a variable-length sequence, GetFixedSize leaves
is_fixed_size false, whatever it started as. -/
theorem getFixedSize_containsSequence (junk : Nat) :
    ∀ (t : TypeDesc) (f : Bool) (acc : Nat), containsSequence t = true →
      (getFixedSize junk t f acc).1 = false
  | .numeric _ _, _, _, h => by simp [containsSequence] at h
  | .sequence _, _, _, _ => rfl
  | .array t n, f, acc, h => by
      have ht : containsSequence t = true := by simpa [containsSequence] using h
      by_cases hn : n = 0
      · simp [getFixedSize, hn]
      · simpa [getFixedSize, hn] using getFixedSize_containsSequence junk t f junk ht
  | .custom _ fs, f, acc, h =>
      getFixedSizeFields_containsSequence junk fs f acc
        (by simpa [containsSequence] using h)

/-- If some field contains a variable-length sequence, the field visitor
ends with is_fixed_size false. -/
theorem getFixedSizeFields_containsSequence (junk : Nat) :
    ∀ (fs : FieldList) (f : Bool) (acc : Nat), fieldsContainSequence fs = true →
      (getFixedSizeFields junk fs f acc).1 = false
  | .nil, _, _, h => by simp [fieldsContainSequence] at h
  | .cons _ t rest, f, acc, h => by
      cases f with
      | false => simp [getFixedSizeFields_false]
      | true =>
          rcases Bool.or_eq_true_iff.mp (by simpa [fieldsContainSequence] using h) with
            hh | hh
          · have h1 := getFixedSize_containsSequence junk t true acc hh
            simp [getFixedSizeFields, h1, getFixedSizeFields_false]
          · simpa [getFixedSizeFields] using
              getFixedSizeFields_containsSequence junk rest
                (getFixedSize junk t true acc).1 (getFixedSize junk t true acc).2 hh

end

/-- A lookup right after an insert under the same key returns the inserted
serializer. -/
theorem lookupType_insertType_self (k : String) (v : SerializerState) :
    ∀ l, lookupType k (insertType k v l) = some v
  | [] => by simp [insertType, lookupType]
  | (k1, w) :: rest => by
      by_cases h : k1 = k
      · simp [insertType, h, lookupType]
      · simp [insertType, h, lookupType, lookupType_insertType_self k v rest]

/-- Every key present after an insert was the inserted key or already
present. -/
theorem mem_typeNames_insertType (k x : String) (v : SerializerState) :
    ∀ l, x ∈ typeNames (insertType k v l) → x = k ∨ x ∈ typeNames l
  | [] => by simp [insertType, typeNames]
  | (k1, w) :: rest => by
      by_cases h : k1 = k
      · subst h
        simp [insertType, typeNames]
      · simp only [insertType, h, if_false, typeNames, List.map_cons, List.mem_cons]
        intro hx
        rcases hx with hx | hx
        · exact Or.inr (Or.inl hx)
        · rcases mem_typeNames_insertType k x v rest hx with h1 | h1
          · exact Or.inl h1
          · exact Or.inr (Or.inr h1)

/-- Inserting into a map whose keys are pairwise distinct keeps them
pairwise distinct. -/
theorem insertType_nodup (k : String) (v : SerializerState) :
    ∀ l, (typeNames l).Nodup → (typeNames (insertType k v l)).Nodup
  | [] => by intro _; simp [insertType, typeNames]
  | (k1, w) :: rest => by
      intro h
      rw [show typeNames ((k1, w) :: rest) = k1 :: typeNames rest from rfl,
        List.nodup_cons] at h
      by_cases hk : k1 = k
      · subst hk
        simpa [insertType, typeNames, List.nodup_cons] using h
      · rw [show typeNames (insertType k v ((k1, w) :: rest)) =
          k1 :: typeNames (insertType k v rest) by simp [insertType, hk, typeNames],
          List.nodup_cons]
        refine ⟨fun hmem => ?_, insertType_nodup k v rest h.2⟩
        rcases mem_typeNames_insertType k k1 v rest hmem with h1 | h1
        · exact hk h1
        · exact h.1 h1

/-- Each single registry operation keeps the map keys pairwise distinct. -/
theorem applyOp_nodup (junk : Nat) (r : Registry) (op : RegOp)
    (h : (typeNames r.types).Nodup) : (typeNames (applyOp junk r op).types).Nodup := by
  cases op with
  | get t =>
      by_cases hn : isNumericType t
      · simpa [applyOp, getSerializer, hn] using h
      · by_cases hc : isContainer t
        · simpa [applyOp, getSerializer, hn, hc] using h
        · cases hl : lookupType (typeName t) r.types with
          | some s => simpa [applyOp, getSerializer, hn, hc, hl] using h
          | none =>
              simpa [applyOp, getSerializer, hn, hc, hl] using
                insertType_nodup (typeName t) _ r.types h
  | add t nm skip =>
      by_cases hn : isNumericType t
      · simpa [applyOp, addType, hn] using h
      · by_cases hc : isContainer t
        · simpa [applyOp, addType, hn, hc] using h
        · by_cases hs : skip = true ∧ (lookupType nm r.types).isSome = true
          · simpa [applyOp, addType, hn, hc, hs.1, hs.2] using h
          · have hcond : (skip && (lookupType nm r.types).isSome) = false := by
              rcases Bool.eq_false_or_eq_true skip with h1 | h1
              · rcases Bool.eq_false_or_eq_true (lookupType nm r.types).isSome with
                  h2 | h2
                · exact absurd ⟨h1, h2⟩ hs
                · simp [h2]
              · simp [h1]
            simpa [applyOp, addType, hn, hc, hcond] using
              insertType_nodup nm _ r.types h

/-- Any sequence of registry operations keeps the map keys pairwise
distinct. -/
theorem runOps_nodup (junk : Nat) :
    ∀ (ops : List RegOp) (r : Registry),
      (typeNames r.types).Nodup → (typeNames (runOps junk ops r).types).Nodup
  | [], _, h => h
  | op :: rest, r, h =>
      runOps_nodup junk rest (applyOp junk r op) (applyOp_nodup junk r op h)

/-! ### Claims -/

/-- C1: For every non-numeric, non-container type T,
TypesRegistry::getSerializer<T>() is memoizing: when nothing is stored
under T's type name it constructs a serializer, stores it under that name,
and returns it; when one is already stored it returns that existing
instance and leaves the registry untouched. Consequently two successive
calls for the same type return the same serializer instance and the
second call does not modify the registry. -/
theorem getSerializer_memoizing (junk : Nat) (r : Registry) (t : TypeDesc)
    (hn : isNumericType t = false) (hc : isContainer t = false) :
    ∃ s r2, getSerializer junk r t = .ok (s, r2) ∧
      lookupType (typeName t) r2.types = some s ∧
      getSerializer junk r2 t = .ok (s, r2) ∧
      (∀ s0, lookupType (typeName t) r.types = some s0 → s = s0 ∧ r2 = r) ∧
      (lookupType (typeName t) r.types = none →
        s = mkSerializer junk (typeName t) t r.nextId ∧
        r2.types = insertType (typeName t) s r.types ∧
        r2.nextId = r.nextId + 1) := by
  cases hl : lookupType (typeName t) r.types with
  | some s0 =>
      refine ⟨s0, r, ?_, hl, ?_, ?_, ?_⟩
      · simp [getSerializer, hn, hc, hl]
      · simp [getSerializer, hn, hc, hl]
      · intro s1 h1
        exact ⟨Option.some_inj.mp h1, rfl⟩
      · intro h1
        exact absurd h1 (by simp)
  | none =>
      refine ⟨mkSerializer junk (typeName t) t r.nextId,
        { types :=
            insertType (typeName t) (mkSerializer junk (typeName t) t r.nextId) r.types,
          nextId := r.nextId + 1 }, ?_, ?_, ?_, ?_, ?_⟩
      · simp [getSerializer, hn, hc, hl]
      · exact lookupType_insertType_self _ _ _
      · simp [getSerializer, hn, hc, lookupType_insertType_self]
      · intro s1 h1
        exact absurd h1.symm (by simp)
      · intro _
        exact ⟨rfl, rfl, rfl⟩

/-- Witness for getSerializer_memoizing: the concrete composite pointType
against the empty registry. -/
theorem getSerializer_memoizing_witness :
    isNumericType pointType = false ∧ isContainer pointType = false ∧
    (∃ s r2, getSerializer 0 emptyRegistry pointType = .ok (s, r2) ∧
      lookupType (typeName pointType) r2.types = some s ∧
      getSerializer 0 r2 pointType = .ok (s, r2) ∧
      (∀ s0, lookupType (typeName pointType) emptyRegistry.types = some s0 →
        s = s0 ∧ r2 = emptyRegistry) ∧
      (lookupType (typeName pointType) emptyRegistry.types = none →
        s = mkSerializer 0 (typeName pointType) pointType emptyRegistry.nextId ∧
        r2.types = insertType (typeName pointType) s emptyRegistry.types ∧
        r2.nextId = emptyRegistry.nextId + 1)) :=
  ⟨by decide, by decide,
    getSerializer_memoizing 0 emptyRegistry pointType (by decide) (by decide)⟩

/-- C2: A composite type containing a variable-length sequence field,
directly or nested, yields a serializer with isFixedSize() = false and a
stored fixed size of 0; in particular this holds for the scenario type
with one fixed array field of 4 numerics and one sequence field. -/
theorem containsSequence_not_fixed (junk : Nat) (nm : String) (t : TypeDesc)
    (id : Nat) (h : containsSequence t = true) :
    (mkSerializer junk nm t id).isFixedSize = false ∧
    (mkSerializer junk nm t id).fixedSize = 0 ∧
    (mkSerializer junk "Scenario" scenarioType id).isFixedSize = false := by
  have key : ∀ (nm2 : String) (t2 : TypeDesc), containsSequence t2 = true →
      (mkSerializer junk nm2 t2 id).isFixedSize = false ∧
      (mkSerializer junk nm2 t2 id).fixedSize = 0 := by
    intro nm2 t2 h2
    have hf := getFixedSize_containsSequence junk t2 true 0 h2
    constructor
    · simp [mkSerializer, SerializerState.isFixedSize, hf]
    · simp [mkSerializer, hf]
  exact ⟨(key nm t h).1, (key nm t h).2, (key "Scenario" scenarioType (by decide)).1⟩

/-- Witness for containsSequence_not_fixed at the scenario type. -/
theorem containsSequence_not_fixed_witness :
    containsSequence scenarioType = true ∧
    (mkSerializer 0 "Scenario" scenarioType 0).isFixedSize = false ∧
    (mkSerializer 0 "Scenario" scenarioType 0).fixedSize = 0 :=
  ⟨by decide,
    (containsSequence_not_fixed 0 "Scenario" scenarioType 0 (by decide)).1,
    (containsSequence_not_fixed 0 "Scenario" scenarioType 0 (by decide)).2.1⟩

/-- C3: the claim that a fixed array field of N elements of type E
contributes exactly N * size(E) to the cached fixed size fails on the
code: the array branch of GetFixedSize (custom_types.hpp line 143) reads
the local obj_size it never initialized, so the contribution is
N * (junk + size(E)) for whatever indeterminate value junk the local
happened to hold. For the composite holding std::array<int32_t, 4>, an
indeterminate value of 0 gives the intended 16 bytes but an indeterminate
value of 5 gives 36. -/
theorem getFixedSize_array_uninitialized :
    getFixedSize 0 arrayHolderType true 0 = (true, 16) ∧
    getFixedSize 5 arrayHolderType true 0 = (true, 36) := by decide

/-- C4: serializedSize returns the construction-time cached value whenever
isFixedSize() is true - for every instance, hence identically across
repeated calls - and performs the per-call BufferSize measurement of the
instance whenever isFixedSize() is false. -/
theorem serializedSize_cached_or_measured (junk : Nat) (nm : String)
    (t : TypeDesc) (id : Nat) (v : Value) :
    ((mkSerializer junk nm t id).isFixedSize = true →
      (mkSerializer junk nm t id).serializedSize v =
        (mkSerializer junk nm t id).fixedSize) ∧
    ((mkSerializer junk nm t id).isFixedSize = false →
      (mkSerializer junk nm t id).serializedSize v = bufferSize v) := by
  constructor
  · intro h
    have h2 : 0 < (mkSerializer junk nm t id).fixedSize := by
      simpa [SerializerState.isFixedSize] using h
    simp [SerializerState.serializedSize, Nat.pos_iff_ne_zero.mp h2]
  · intro h
    have h2 : ¬ 0 < (mkSerializer junk nm t id).fixedSize := by
      simpa [SerializerState.isFixedSize] using h
    have h1 : (mkSerializer junk nm t id).fixedSize = 0 := by omega
    simp [SerializerState.serializedSize, h1]

/-- Witness for serializedSize_cached_or_measured: the fixed-size pairType
and the variable-size polyType, measured on a concrete instance. -/
theorem serializedSize_cached_or_measured_witness :
    (mkSerializer 0 "Pair" pairType 0).isFixedSize = true ∧
    (mkSerializer 0 "Pair" pairType 0).serializedSize polyValue =
      (mkSerializer 0 "Pair" pairType 0).fixedSize ∧
    (mkSerializer 0 "Poly" polyType 1).isFixedSize = false ∧
    (mkSerializer 0 "Poly" polyType 1).serializedSize polyValue =
      bufferSize polyValue :=
  ⟨by decide,
    (serializedSize_cached_or_measured 0 "Pair" pairType 0 polyValue).1 (by decide),
    by decide,
    (serializedSize_cached_or_measured 0 "Poly" polyType 1 polyValue).2 (by decide)⟩

/-- C5: after any sequence of getSerializer and addType operations the
registry map holds at most one serializer per type name (its keys are
pairwise distinct), and getSerializer construction is memoized: when a
serializer is already stored under the type's name, the get operation
leaves the registry - in particular the allocation counter - unchanged,
so no serializer is constructed. -/
theorem registry_at_most_one_serializer (junk : Nat) (ops : List RegOp) :
    (typeNames (runOps junk ops emptyRegistry).types).Nodup ∧
    ∀ (r : Registry) (t : TypeDesc),
      (lookupType (typeName t) r.types).isSome = true →
      applyOp junk r (.get t) = r := by
  constructor
  · exact runOps_nodup junk ops emptyRegistry (by simp [emptyRegistry, typeNames])
  · intro r t h
    by_cases hn : isNumericType t
    · simp [applyOp, getSerializer, hn]
    · by_cases hc : isContainer t
      · simp [applyOp, getSerializer, hn, hc]
      · rcases Option.isSome_iff_exists.mp h with ⟨s, hs⟩
        simp [applyOp, getSerializer, hn, hc, hs]

/-- Witness for registry_at_most_one_serializer: a concrete operation
sequence and a registry already holding pointType. -/
theorem registry_at_most_one_serializer_witness :
    (typeNames (runOps 0 [.add pointType "Point" false, .get pointType]
      emptyRegistry).types).Nodup ∧
    (lookupType (typeName pointType) demoRegistry.types).isSome = true ∧
    applyOp 0 demoRegistry (.get pointType) = demoRegistry :=
  ⟨(registry_at_most_one_serializer 0 [.add pointType "Point" false, .get pointType]).1,
    by decide,
    (registry_at_most_one_serializer 0 []).2 demoRegistry pointType (by decide)⟩

/-- C6: requesting a custom serializer for a built-in numeric primitive
type, through getSerializer or addType, fails fast as a programming error
signaled at the call site (a static assertion, embedded here as an error
result): no serializer boxing the numeric type is ever produced. -/
theorem numeric_request_fails_fast (junk : Nat) (r : Registry) (nm tn : String)
    (w : Nat) (skip : Bool) :
    getSerializer junk r (.numeric nm w) = .error numericAssertMsg ∧
    addType junk r (.numeric nm w) tn skip = .error numericAssertMsg :=
  ⟨rfl, rfl⟩

/-- C8: a type whose registration-time computation yields fixed size
exactly 0 with is_fixed_size still true (e.g. a composite whose field
visitor enumerates no fields) gets a serializer reporting
isFixedSize() = false whose serializedSize takes the per-call measurement
path: the implementation uses the sentinel fixed size 0 to mean variable,
so a genuinely fixed-size type of size zero is indistinguishable from a
variable-size type at the Serializer interface. -/
theorem zero_fixed_size_sentinel (junk : Nat) (nm : String) (t : TypeDesc)
    (id : Nat) (v : Value) (h : getFixedSize junk t true 0 = (true, 0)) :
    (mkSerializer junk nm t id).isFixedSize = false ∧
    (mkSerializer junk nm t id).serializedSize v = bufferSize v := by
  constructor
  · simp [mkSerializer, h, SerializerState.isFixedSize]
  · simp [mkSerializer, h, SerializerState.serializedSize]

/-- Witness for zero_fixed_size_sentinel: the composite type with no
fields, measured on an empty record instance. -/
theorem zero_fixed_size_sentinel_witness :
    getFixedSize 0 emptyType true 0 = (true, 0) ∧
    (mkSerializer 0 "Empty" emptyType 0).isFixedSize = false ∧
    (mkSerializer 0 "Empty" emptyType 0).serializedSize (.record .nil) =
      bufferSize (.record .nil) :=
  ⟨by decide,
    (zero_fixed_size_sentinel 0 "Empty" emptyType 0 (.record .nil) (by decide)).1,
    (zero_fixed_size_sentinel 0 "Empty" emptyType 0 (.record .nil) (by decide)).2⟩

/-- C9: addType with skip_if_present = true returns the empty serializer
pointer and leaves the map untouched when the name is already stored;
with skip_if_present = false it unconditionally constructs a new
serializer and stores it under the name, replacing any previously stored
instance (a lookup afterwards returns the new serializer). -/
theorem addType_skip_or_replace (junk : Nat) (r : Registry) (t : TypeDesc)
    (nm : String) (hn : isNumericType t = false) (hc : isContainer t = false) :
    ((lookupType nm r.types).isSome = true →
      addType junk r t nm true = .ok (none, r)) ∧
    (addType junk r t nm false =
      .ok (some (mkSerializer junk nm t r.nextId),
        { types := insertType nm (mkSerializer junk nm t r.nextId) r.types,
          nextId := r.nextId + 1 }) ∧
      lookupType nm (insertType nm (mkSerializer junk nm t r.nextId) r.types) =
        some (mkSerializer junk nm t r.nextId)) := by
  refine ⟨fun h => ?_, ?_, lookupType_insertType_self _ _ _⟩
  · simp [addType, hn, hc, h]
  · simp [addType, hn, hc]

/-- Witness for addType_skip_or_replace: pointType against the registry
that already stores it. -/
theorem addType_skip_or_replace_witness :
    isNumericType pointType = false ∧ isContainer pointType = false ∧
    (lookupType "Point" demoRegistry.types).isSome = true ∧
    addType 0 demoRegistry pointType "Point" true = .ok (none, demoRegistry) ∧
    addType 0 demoRegistry pointType "Point" false =
      .ok (some (mkSerializer 0 "Point" pointType demoRegistry.nextId),
        { types := insertType "Point"
            (mkSerializer 0 "Point" pointType demoRegistry.nextId) demoRegistry.types,
          nextId := demoRegistry.nextId + 1 }) :=
  ⟨by decide, by decide, by decide,
    (addType_skip_or_replace 0 demoRegistry pointType "Point"
      (by decide) (by decide)).1 (by decide),
    (addType_skip_or_replace 0 demoRegistry pointType "Point"
      (by decide) (by decide)).2.1⟩

/-- C10: the TypeDefinition specializations for variable-length containers
and for std::array both report the container's type name as exactly the
element type's name, so a container and its element share the same type
name string. -/
theorem container_typeName_is_element_typeName (t : TypeDesc) (n : Nat) :
    typeName (.sequence t) = typeName t ∧ typeName (.array t n) = typeName t :=
  ⟨rfl, rfl⟩

end DataTamer
